import Mathlib

/-!
Verification of the aggregation and telemetry logic of the places-ops
dashboard (src/apple_places/app.py) against its specification.

The Python code is shallowly embedded: pandas dataframes become lists of
records, the dataframe operations (drop_duplicates, boolean filtering,
sort_values, groupby-free aggregations) become list functions, currency
amounts and scores become exact rationals, and the tab-2 try/except block
becomes a total function from the state of the run-metadata file to a
rendering outcome.
-/

namespace PlacesOps

/-- One row of the fct_project_spend table (one expense line), as loaded by
load_data in app.py.  Numeric columns are modelled as exact rationals. -/
structure SpendRecord where
  project_name : String
  campus : String
  budget_allocated : ℚ
  vendor_name : String
  reliability_score : ℚ
  expense_date : String
  amount : ℚ
  category : String
deriving DecidableEq

/-- Helper for dropDuplicates: walk the list keeping each row not seen
before, remembering seen rows in the accumulator. -/
def dropDupSeen {α : Type} [DecidableEq α] (seen : List α) : List α → List α
  | [] => []
  | a :: l => if a ∈ seen then dropDupSeen seen l else a :: dropDupSeen (a :: seen) l

/-- pandas DataFrame.drop_duplicates: keep the first occurrence of each
distinct row, preserving order. -/
def dropDuplicates {α : Type} [DecidableEq α] (l : List α) : List α :=
  dropDupSeen [] l

/-- Helper for dedupByKey: keep each row whose key was not seen before. -/
def dedupByKeySeen {α β : Type} [DecidableEq β] (key : α → β) (seen : List β) :
    List α → List α
  | [] => []
  | a :: l =>
    if key a ∈ seen then dedupByKeySeen key seen l
    else a :: dedupByKeySeen key (key a :: seen) l

/-- Deduplication by a key function, keeping the first row for each key in
order.  This is the spec-side notion "deduplicated by project name" /
"deduplicate by vendor name"; the code's drop_duplicates acts on whole
(two-column) rows instead. -/
def dedupByKey {α β : Type} [DecidableEq β] (key : α → β) (l : List α) : List α :=
  dedupByKeySeen key [] l

/-- Projection to the two columns selected on line 61 of app.py:
df[[t_project_name, budget_allocated]]. -/
def budgetPair (r : SpendRecord) : String × ℚ :=
  (r.project_name, r.budget_allocated)

/-- app.py lines 61-62: project_budgets = df[[project_name,
budget_allocated]].drop_duplicates(); total_budget =
project_budgets[budget_allocated].sum(). -/
def total_budget (df : List SpendRecord) : ℚ :=
  ((dropDuplicates (df.map budgetPair)).map Prod.snd).sum

/-- Modelled from the spec (section 4.2): sum of budget_allocated over
records deduplicated by project name.  Used as the reference value the
code's total_budget is compared with. -/
def total_budget_by_name (df : List SpendRecord) : ℚ :=
  ((dedupByKey (fun r => r.project_name) df).map (fun r => r.budget_allocated)).sum

/-- app.py line 63: total_spend = df[amount].sum(). -/
def total_spend (df : List SpendRecord) : ℚ :=
  (df.map (fun r => r.amount)).sum

/-- app.py line 65: percentage_spend = 100 * total_spend / total_budget if
total_budget > 0 else 0. -/
def percentage_spend (df : List SpendRecord) : ℚ :=
  if total_budget df > 0 then 100 * total_spend df / total_budget df else 0

/-- app.py line 74: the value passed to st.progress,
min(percentage_spend / 100, 1.0). -/
def progressValue (df : List SpendRecord) : ℚ :=
  min (percentage_spend df / 100) 1

/-- Comparison of risk rows by reliability score (the sort key of
sort_values on line 146). -/
def scoreLE (a b : String × ℚ) : Prop := a.2 ≤ b.2

instance : DecidableRel scoreLE := fun a b => inferInstanceAs (Decidable (a.2 ≤ b.2))

instance : IsTotal (String × ℚ) scoreLE := ⟨fun a b => le_total a.2 b.2⟩

instance : IsTrans (String × ℚ) scoreLE := ⟨fun _ _ _ h1 h2 => le_trans h1 h2⟩

/-- app.py lines 82 and 145-146: filtered_df = df[df.campus == campus];
risk_df = filtered_df[[vendor_name, reliability_score]].drop_duplicates();
risky_vendors = risk_df[risk_df.reliability_score < threshold]
.sort_values(reliability_score).  pandas' default sort is not stable; we
model it with insertion sort, which realises the same sorted multiset. -/
def risky_vendors (df : List SpendRecord) (campus : String) (threshold : ℚ) :
    List (String × ℚ) :=
  let filtered := df.filter (fun r => r.campus = campus)
  let risk := dropDuplicates (filtered.map (fun r => (r.vendor_name, r.reliability_score)))
  let kept := risk.filter (fun p => p.2 < threshold)
  List.insertionSort scoreLE kept

/-- The data-model invariant of section 3 of the spec: budget_allocated is
constant for all rows sharing a project_name. -/
def BudgetConsistent (df : List SpendRecord) : Prop :=
  ∀ r1 ∈ df, ∀ r2 ∈ df, r1.project_name = r2.project_name →
    r1.budget_allocated = r2.budget_allocated

instance (df : List SpendRecord) : Decidable (BudgetConsistent df) := by
  unfold BudgetConsistent
  infer_instance

/-- One element of the results array of run_results.json, as consumed on
lines 176-204 of app.py.  Every field is read with .get and a default, so
each is modelled as optional. -/
structure RunResult where
  unique_id : Option String
  status : Option String
  execution_time : Option ℚ
deriving DecidableEq

/-- The run_results.json top-level object; the results key may be absent
(read with run_results.get on line 176). -/
structure RunMetadata where
  resultsField : Option (List RunResult)
deriving DecidableEq

/-- app.py line 176: results = run_results.get(results-key, []). -/
def RunMetadata.resultsOrEmpty (m : RunMetadata) : List RunResult :=
  m.resultsField.getD []

/-- Python round to the nearest integer with ties to even (the rounding
used by round(x, 2)).  Binary floating point is not modelled; the
rounding acts on exact rationals. -/
def roundHalfEven (q : ℚ) : ℤ :=
  if q - ⌊q⌋ < 1 / 2 then ⌊q⌋
  else if q - ⌊q⌋ > 1 / 2 then ⌊q⌋ + 1
  else if ⌊q⌋ % 2 = 0 then ⌊q⌋ else ⌊q⌋ + 1

/-- app.py line 204: round(exec_time, 2), rounding to two decimal places. -/
def round2 (q : ℚ) : ℚ := (roundHalfEven (q * 100) : ℚ) / 100

/-- Python str.split on a one-character separator, over the character
list: empty input gives one empty field, and every separator occurrence
opens a new field (so "" splits to [""], "a..b" to ["a", "", "b"]). -/
def pySplitChars (sep : Char) : List Char → List (List Char)
  | [] => [[]]
  | c :: cs =>
    match pySplitChars sep cs with
    | [] => [[]]
    | h :: t => if c = sep then [] :: h :: t else (c :: h) :: t

/-- Python str.split with a one-character separator, as used with the dot
on lines 199-200 of app.py. -/
def pySplit (sep : Char) (s : String) : List String :=
  (pySplitChars sep s.data).map List.asString

/-- Python str.upper restricted to ASCII, which covers every status string
of the run metadata (app.py line 201). -/
def pyUpper (s : String) : String :=
  (s.data.map Char.toUpper).asString

/-- app.py line 199: unique_id.split on the dot, first segment.  Python's
get(unique_id-key, empty) default is modelled by Option.getD. -/
def nodeType (r : RunResult) : String :=
  (pySplit '.' (r.unique_id.getD "")).headD ""

/-- app.py line 200: last segment of the dot-split identifier. -/
def displayName (r : RunResult) : String :=
  (pySplit '.' (r.unique_id.getD "")).getLastD ""

/-- One row of the models/tests tables built on line 204 of app.py; the
fields correspond to the Node Name, Status and Time columns. -/
structure NodeRow where
  name : String
  status : String
  time : ℚ
deriving DecidableEq

/-- app.py lines 198-204: the row built for one run result, with defaults
unknown for a missing status and 0 for a missing execution_time. -/
def rowOf (r : RunResult) : NodeRow :=
  { name := displayName r
    status := pyUpper (r.status.getD "unknown")
    time := round2 (r.execution_time.getD 0) }

/-- app.py lines 194-209: the loop that appends each row to models_data
when the leading segment is model, to tests_data when it is test, and to
neither otherwise.  Returns (models_data, tests_data) in input order. -/
def split_by_node_kind : List RunResult → List NodeRow × List NodeRow
  | [] => ([], [])
  | r :: rest =>
    let p := split_by_node_kind rest
    if nodeType r = "model" then (rowOf r :: p.1, p.2)
    else if nodeType r = "test" then (p.1, rowOf r :: p.2)
    else p

/-- The three pipeline KPI scalars computed on lines 179-182 of app.py. -/
structure PipelineKpis where
  total_nodes : ℕ
  success_rate : ℚ
  total_execution_time : ℚ
deriving DecidableEq

/-- app.py lines 179-182: total_nodes = len(results); successful_nodes
counts r.get(status-key) in [success, pass]; success_rate =
(successful_nodes / total_nodes) * 100 if total_nodes > 0 else 0;
total_time = sum of r.get(execution_time-key, 0). -/
def pipeline_kpis (results : List RunResult) : PipelineKpis :=
  let total_nodes := results.length
  let successful_nodes :=
    (results.filter (fun r => r.status = some "success" ∨ r.status = some "pass")).length
  { total_nodes := total_nodes
    success_rate :=
      if total_nodes > 0 then ((successful_nodes : ℚ) / total_nodes) * 100 else 0
    total_execution_time := (results.map (fun r => r.execution_time.getD 0)).sum }

/-- State of the run-metadata file when tab 2 renders: absent, present but
structurally malformed, or present with parsed content. -/
inductive RunFileState where
  | missingFile
  | malformedJson
  | okJson (meta : RunMetadata)
deriving DecidableEq

/-- Outcome of rendering tab 2: the warning branch of the except clause, an
exception that escapes the try block, or the rendered telemetry. -/
inductive Tab2View where
  | warningView (msg : String)
  | uncaughtError
  | rendered (kpis : PipelineKpis) (models_data tests_data : List NodeRow)
deriving DecidableEq

/-- app.py lines 171-245: the try block of tab 2.  open raises
FileNotFoundError on a missing file, which the except clause on line 244
catches and turns into st.warning; json.load raises JSONDecodeError on
malformed content, which the except clause (FileNotFoundError only) does
not catch, so it propagates out of the block uncaught; otherwise the
KPIs and the two split tables are computed and rendered. -/
def renderTab2 : RunFileState → Tab2View
  | RunFileState.missingFile => Tab2View.warningView "run_results.json not found."
  | RunFileState.malformedJson => Tab2View.uncaughtError
  | RunFileState.okJson m =>
    let results := m.resultsOrEmpty
    Tab2View.rendered (pipeline_kpis results)
      (split_by_node_kind results).1 (split_by_node_kind results).2

/-- The telemetry rows a tab-2 outcome displays: none unless rendering
reached the tables. -/
def shownResults : Tab2View → List NodeRow
  | Tab2View.rendered _ ms ts => ms ++ ts
  | _ => []

/-- Whether a tab-2 outcome is the visible warning produced by the except
clause. -/
def isWarningView : Tab2View → Bool
  | Tab2View.warningView _ => true
  | _ => false

/-! Helper lemmas about first-occurrence deduplication. -/

theorem mem_dropDupSeen {α : Type} [DecidableEq α] {x : α} :
    ∀ {seen l : List α}, x ∈ dropDupSeen seen l → x ∈ l ∧ x ∉ seen := by
  intro seen l
  induction l generalizing seen with
  | nil => simp [dropDupSeen]
  | cons a l ih =>
    simp only [dropDupSeen]
    split
    · intro hx
      obtain ⟨h1, h2⟩ := ih hx
      exact ⟨List.mem_cons_of_mem _ h1, h2⟩
    · next hnot =>
      intro hx
      rcases List.mem_cons.mp hx with rfl | hx'
      · exact ⟨List.mem_cons_self _ _, hnot⟩
      · obtain ⟨h1, h2⟩ := ih hx'
        exact ⟨List.mem_cons_of_mem _ h1, fun hs => h2 (List.mem_cons_of_mem _ hs)⟩

theorem nodup_dropDupSeen {α : Type} [DecidableEq α] :
    ∀ (l seen : List α), (dropDupSeen seen l).Nodup := by
  intro l
  induction l with
  | nil => intro seen; simp [dropDupSeen]
  | cons a l ih =>
    intro seen
    simp only [dropDupSeen]
    split
    · exact ih _
    · refine List.Nodup.cons ?_ (ih _)
      intro ha
      exact (mem_dropDupSeen ha).2 (List.mem_cons_self _ _)

theorem nodup_dropDuplicates {α : Type} [DecidableEq α] (l : List α) :
    (dropDuplicates l).Nodup :=
  nodup_dropDupSeen l []

/-- Under the budget invariant, first-occurrence deduplication of the
(project_name, budget_allocated) pairs coincides with deduplication of the
records by project name alone, projected to pairs. -/
theorem dropDupSeen_budgetPair (full : List SpendRecord) (H : BudgetConsistent full) :
    ∀ (l seen : List SpendRecord), (∀ x ∈ l, x ∈ full) → (∀ x ∈ seen, x ∈ full) →
      dropDupSeen (seen.map budgetPair) (l.map budgetPair)
        = (dedupByKeySeen (fun r => r.project_name)
            (seen.map (fun r => r.project_name)) l).map budgetPair := by
  intro l
  induction l with
  | nil => intro seen _ _; simp [dropDupSeen, dedupByKeySeen]
  | cons a l ih =>
    intro seen hl hseen
    have ha : a ∈ full := hl a (List.mem_cons_self a l)
    have hl' : ∀ x ∈ l, x ∈ full := fun x hx => hl x (List.mem_cons_of_mem _ hx)
    have hiff : budgetPair a ∈ seen.map budgetPair ↔
        a.project_name ∈ seen.map (fun r => r.project_name) := by
      constructor
      · intro hmem
        rcases List.mem_map.mp hmem with ⟨b, hb, hpb⟩
        refine List.mem_map.mpr ⟨b, hb, ?_⟩
        have : (budgetPair b).1 = (budgetPair a).1 := by rw [hpb]
        simpa [budgetPair] using this
      · intro hmem
        rcases List.mem_map.mp hmem with ⟨b, hb, hnb⟩
        have hbud : b.budget_allocated = a.budget_allocated :=
          H b (hseen b hb) a ha hnb
        exact List.mem_map.mpr ⟨b, hb, by simp [budgetPair, hnb, hbud]⟩
    simp only [List.map_cons, dropDupSeen, dedupByKeySeen]
    by_cases hc : a.project_name ∈ seen.map (fun r => r.project_name)
    · rw [if_pos (hiff.mpr hc), if_pos hc]
      exact ih seen hl' hseen
    · rw [if_neg (fun hx => hc (hiff.mp hx)), if_neg hc]
      simp only [List.map_cons]
      have hseen' : ∀ x ∈ a :: seen, x ∈ full := by
        intro x hx
        rcases List.mem_cons.mp hx with rfl | hx'
        · exact ha
        · exact hseen x hx'
      have := ih (a :: seen) hl' hseen'
      simp only [List.map_cons] at this
      rw [this]

/-- Under the budget invariant, the code's two-column drop_duplicates
realises deduplication by project name. -/
theorem dropDuplicates_budgetPair (df : List SpendRecord) (H : BudgetConsistent df) :
    dropDuplicates (df.map budgetPair)
      = (dedupByKey (fun r => r.project_name) df).map budgetPair := by
  simpa [dropDuplicates, dedupByKey] using
    dropDupSeen_budgetPair df H df [] (fun x hx => hx) (by simp)

/-- C4: on record sets satisfying the data-model invariant (a project's
budget_allocated is constant across its rows), total_budget sums
budget_allocated over records deduplicated by project name, so two rows
sharing a project name contribute the budget once; and total_budget of the
empty record set is 0. -/
theorem C4_total_budget_dedup (df : List SpendRecord) (h : BudgetConsistent df) :
    total_budget df = total_budget_by_name df ∧
    total_budget ([] : List SpendRecord) = 0 := by
  constructor
  · unfold total_budget total_budget_by_name
    rw [dropDuplicates_budgetPair df h, List.map_map]
    rfl
  · simp [total_budget, dropDuplicates, dropDupSeen]

/-- Witness for C4 at a record set with a duplicated project row: the
invariant holds there and the deduplicated sum is reached. -/
theorem C4_witness :
    BudgetConsistent
        [⟨"A", "X", 100, "V1", 90, "d1", 40, "Labor"⟩,
         ⟨"A", "X", 100, "V2", 80, "d2", 20, "Labor"⟩,
         ⟨"B", "X", 50, "V1", 90, "d1", 10, "Labor"⟩] ∧
      (total_budget
          [⟨"A", "X", 100, "V1", 90, "d1", 40, "Labor"⟩,
           ⟨"A", "X", 100, "V2", 80, "d2", 20, "Labor"⟩,
           ⟨"B", "X", 50, "V1", 90, "d1", 10, "Labor"⟩]
        = total_budget_by_name
          [⟨"A", "X", 100, "V1", 90, "d1", 40, "Labor"⟩,
           ⟨"A", "X", 100, "V2", 80, "d2", 20, "Labor"⟩,
           ⟨"B", "X", 50, "V1", 90, "d1", 10, "Labor"⟩] ∧
        total_budget ([] : List SpendRecord) = 0) :=
  ⟨by decide, C4_total_budget_dedup _ (by decide)⟩

/-- C5: percent spent equals 100 * total_spend / total_budget when
total_budget is positive and is 0 when total_budget is 0, so the guarded
division never divides by zero. -/
theorem C5_percentage_guard (df : List SpendRecord) :
    (0 < total_budget df →
      percentage_spend df = 100 * total_spend df / total_budget df) ∧
    (total_budget df = 0 → percentage_spend df = 0) := by
  constructor
  · intro h
    simp [percentage_spend, h]
  · intro h
    simp [percentage_spend, h]

/-- Witness for C5 at a one-row record set with positive budget and at the
empty record set. -/
theorem C5_witness :
    (0 < total_budget [⟨"A", "X", 100, "V", 90, "d1", 40, "Labor"⟩] ∧
      percentage_spend [⟨"A", "X", 100, "V", 90, "d1", 40, "Labor"⟩]
        = 100 * total_spend [⟨"A", "X", 100, "V", 90, "d1", 40, "Labor"⟩]
            / total_budget [⟨"A", "X", 100, "V", 90, "d1", 40, "Labor"⟩]) ∧
    (total_budget ([] : List SpendRecord) = 0 ∧
      percentage_spend ([] : List SpendRecord) = 0) := by
  have h1 : 0 < total_budget [⟨"A", "X", 100, "V", 90, "d1", 40, "Labor"⟩] := by
    norm_num [total_budget, dropDuplicates, dropDupSeen, budgetPair]
  have h2 : total_budget ([] : List SpendRecord) = 0 := by
    simp [total_budget, dropDuplicates, dropDupSeen]
  exact ⟨⟨h1, (C5_percentage_guard _).1 h1⟩, ⟨h2, (C5_percentage_guard _).2 h2⟩⟩

/-- C6: on record sets with non-negative expense amounts (the data model's
currency amounts), the value passed to the progress display lies in
[0, 1], even when total spend exceeds total budget. -/
theorem C6_progress_clamped (df : List SpendRecord) (h : ∀ r ∈ df, 0 ≤ r.amount) :
    0 ≤ progressValue df ∧ progressValue df ≤ 1 := by
  have hs : 0 ≤ total_spend df := by
    apply List.sum_nonneg
    intro x hx
    rcases List.mem_map.mp hx with ⟨r, hr, rfl⟩
    exact h r hr
  have hp : 0 ≤ percentage_spend df := by
    unfold percentage_spend
    split
    · next hb => exact div_nonneg (by linarith) (le_of_lt hb)
    · exact le_refl 0
  constructor
  · exact le_min (div_nonneg hp (by norm_num)) zero_le_one
  · exact min_le_right _ _

/-- Witness for C6 at a record set whose spend (150) exceeds its budget
(100). -/
theorem C6_witness :
    (∀ r ∈ [(⟨"A", "X", 100, "V", 90, "d1", 150, "Labor"⟩ : SpendRecord)], 0 ≤ r.amount) ∧
    (0 ≤ progressValue [⟨"A", "X", 100, "V", 90, "d1", 150, "Labor"⟩] ∧
      progressValue [⟨"A", "X", 100, "V", 90, "d1", 150, "Labor"⟩] ≤ 1) :=
  ⟨by decide, C6_progress_clamped _ (by decide)⟩

/-- C7: pipeline_kpis of the empty result sequence is total_nodes 0,
success_rate 0 and total_execution_time 0, and on a non-empty sequence
success_rate is 100 times the count of results with status success or
pass divided by the number of results. -/
theorem C7_pipeline_kpis_spec (results : List RunResult) :
    pipeline_kpis [] = ⟨0, 0, 0⟩ ∧
    (0 < results.length →
      (pipeline_kpis results).success_rate =
        100 * ((results.filter
            (fun r => r.status = some "success" ∨ r.status = some "pass")).length : ℚ)
          / (results.length : ℚ)) := by
  constructor
  · simp [pipeline_kpis]
  · intro h
    unfold pipeline_kpis
    simp only [if_pos h]
    ring

/-- Witness for C7 at the spec's example run: one successful model and one
failed test. -/
theorem C7_witness :
    0 < ([(⟨some "model.p.m1", some "success", some (3/2)⟩ : RunResult),
          ⟨some "test.p.t1", some "fail", some (1/5)⟩] : List RunResult).length ∧
    (pipeline_kpis
        [⟨some "model.p.m1", some "success", some (3/2)⟩,
         ⟨some "test.p.t1", some "fail", some (1/5)⟩]).success_rate =
      100 * ((([(⟨some "model.p.m1", some "success", some (3/2)⟩ : RunResult),
          ⟨some "test.p.t1", some "fail", some (1/5)⟩] : List RunResult).filter
            (fun r => r.status = some "success" ∨ r.status = some "pass")).length : ℚ)
        / (([(⟨some "model.p.m1", some "success", some (3/2)⟩ : RunResult),
          ⟨some "test.p.t1", some "fail", some (1/5)⟩] : List RunResult).length : ℚ) :=
  ⟨by decide, (C7_pipeline_kpis_spec _).2 (by decide)⟩

/-- C8: every row returned by risky_vendors has reliability score strictly
below the threshold, and the returned rows are sorted ascending by
score. -/
theorem C8_risky_below_threshold_sorted (df : List SpendRecord) (campus : String) (t : ℚ) :
    (∀ p ∈ risky_vendors df campus t, p.2 < t) ∧
    (risky_vendors df campus t).Sorted scoreLE := by
  constructor
  · intro p hp
    have hp' : p ∈ (dropDuplicates ((df.filter (fun r => r.campus = campus)).map
        (fun r => (r.vendor_name, r.reliability_score)))).filter (fun q => q.2 < t) := by
      simpa [risky_vendors] using hp
    simpa using (List.mem_filter.mp hp').2
  · simpa [risky_vendors] using
      List.sorted_insertionSort scoreLE
        ((dropDuplicates ((df.filter (fun r => r.campus = campus)).map
          (fun r => (r.vendor_name, r.reliability_score)))).filter (fun q => q.2 < t))

/-- Witness for C8 at a one-row record set whose vendor scores below the
threshold. -/
theorem C8_witness :
    ("V", (10 : ℚ)) ∈ risky_vendors [⟨"P", "X", 100, "V", 10, "d1", 5, "Labor"⟩] "X" 50 ∧
    (("V", (10 : ℚ)) : String × ℚ).2 < 50 ∧
    (risky_vendors [⟨"P", "X", 100, "V", 10, "d1", 5, "Labor"⟩] "X" 50).Sorted scoreLE :=
  ⟨by decide,
   (C8_risky_below_threshold_sorted [⟨"P", "X", 100, "V", 10, "d1", 5, "Labor"⟩] "X" 50).1
     _ (by decide),
   (C8_risky_below_threshold_sorted [⟨"P", "X", 100, "V", 10, "d1", 5, "Labor"⟩] "X" 50).2⟩

/-- C2 fails on the code: drop_duplicates on line 145 deduplicates by the
(vendor_name, reliability_score) pair, so the same vendor listed with two
different scores for the same campus appears twice in the risk table. -/
theorem C2_counterexample :
    (risky_vendors
        [⟨"P", "X", 100, "V", 10, "d1", 5, "Labor"⟩,
         ⟨"P", "X", 100, "V", 20, "d2", 5, "Labor"⟩] "X" 50).countP
      (fun p => p.1 = "V") = 2 := by decide

/-- C2 amended: risky_vendors deduplicates by the (vendor name,
reliability score) pair, so the output never contains a duplicated row; in
particular a vendor appearing in multiple expense rows for the same campus
with the same reliability score appears exactly once. -/
theorem C2_risky_nodup (df : List SpendRecord) (campus : String) (t : ℚ) :
    (risky_vendors df campus t).Nodup := by
  have h1 : (dropDuplicates ((df.filter (fun r => r.campus = campus)).map
      (fun r => (r.vendor_name, r.reliability_score)))).Nodup :=
    nodup_dropDuplicates _
  have h2 := List.Nodup.filter (fun q => decide (q.2 < t)) h1
  simpa [risky_vendors] using
    (List.perm_insertionSort scoreLE _).nodup_iff.mpr h2

/-- C1 fails on the code: a run result whose identifier's leading segment
is neither model nor test (here a seed node) is appended to neither
models_data nor tests_data, so the row is lost rather than landing in
exactly one of the two output sets. -/
theorem C1_counterexample :
    split_by_node_kind [⟨some "seed.places.vendors", some "success", some 1⟩] = ([], []) ∧
    (split_by_node_kind [⟨some "seed.places.vendors", some "success", some 1⟩]).1.length +
        (split_by_node_kind [⟨some "seed.places.vendors", some "success", some 1⟩]).2.length ≠
      ([(⟨some "seed.places.vendors", some "success", some 1⟩ : RunResult)] : List RunResult).length := by
  constructor
  · decide
  · decide

/-- C1 amended: split_by_node_kind sends each result whose dot-delimited
identifier's leading segment is model to the model set and each whose
leading segment is test to the test set, exactly once each and in input
order, projecting every row through rowOf (last segment as display name,
uppercased status, rounded time); results with any other leading segment
appear in neither output. -/
theorem C1_split_characterisation (results : List RunResult) :
    (split_by_node_kind results).1
        = (results.filter (fun r => nodeType r = "model")).map rowOf ∧
    (split_by_node_kind results).2
        = (results.filter (fun r => nodeType r = "test")).map rowOf := by
  induction results with
  | nil => simp [split_by_node_kind]
  | cons r rest ih =>
    by_cases hm : nodeType r = "model"
    · have hnt : ¬ nodeType r = "test" := by
        rw [hm]; intro hc; exact absurd hc (by decide)
      simp [split_by_node_kind, hm, hnt, List.filter_cons, ih.1, ih.2]
    · by_cases ht : nodeType r = "test"
      · simp [split_by_node_kind, hm, ht, List.filter_cons, ih.1, ih.2]
      · simp [split_by_node_kind, hm, ht, List.filter_cons, ih.1, ih.2]

/-- C3 fails on the code: the except clause of tab 2 catches only
FileNotFoundError, so a structural-parse failure of an existing file
propagates uncaught instead of being surfaced as a visible warning with
processing continuing. -/
theorem C3_counterexample :
    isWarningView (renderTab2 RunFileState.malformedJson) = false ∧
    renderTab2 RunFileState.malformedJson = Tab2View.uncaughtError :=
  ⟨rfl, rfl⟩

/-- C3 amended: malformed JSON in an existing run-metadata file raises a
structural-parse error that escapes the tab-2 block uncaught, so it is not
silently swallowed and is handled distinctly from the missing-file case
(which yields a visible warning), but it is not surfaced as a warning and
processing does not continue for the other panels. -/
theorem C3_malformed_uncaught :
    renderTab2 RunFileState.malformedJson = Tab2View.uncaughtError ∧
    renderTab2 RunFileState.missingFile
        = Tab2View.warningView "run_results.json not found." ∧
    renderTab2 RunFileState.malformedJson ≠ renderTab2 RunFileState.missingFile := by
  refine ⟨rfl, rfl, ?_⟩
  simp [renderTab2]

/-- C9: an absent run-metadata file renders tab 2 as the visible warning
with no telemetry rows shown, never as an uncaught error. -/
theorem C9_missing_file_warning :
    renderTab2 RunFileState.missingFile
        = Tab2View.warningView "run_results.json not found." ∧
    shownResults (renderTab2 RunFileState.missingFile) = [] ∧
    renderTab2 RunFileState.missingFile ≠ Tab2View.uncaughtError := by
  refine ⟨rfl, rfl, ?_⟩
  simp [renderTab2]

/-- C10: a missing status defaults to unknown and is displayed as
UNKNOWN, a missing execution_time defaults to 0, and a metadata object
without the results key is treated as zero nodes with zero success rate
and zero total time. -/
theorem C10_field_defaults (r : RunResult) (m : RunMetadata) :
    (r.status = none → (rowOf r).status = "UNKNOWN") ∧
    (r.execution_time = none → (rowOf r).time = 0) ∧
    (m.resultsField = none → pipeline_kpis m.resultsOrEmpty = ⟨0, 0, 0⟩) := by
  refine ⟨?_, ?_, ?_⟩
  · intro h
    simp only [rowOf, h, Option.getD_none]
    decide
  · intro h
    simp only [rowOf, h, Option.getD_none]
    norm_num [round2, roundHalfEven]
  · intro h
    simp [RunMetadata.resultsOrEmpty, h, pipeline_kpis]

/-- Witness for C10 at a run result with absent status and time and a
metadata object with no results key. -/
theorem C10_witness :
    ((⟨some "model.a.b", none, none⟩ : RunResult).status = none ∧
      (rowOf ⟨some "model.a.b", none, none⟩).status = "UNKNOWN") ∧
    ((⟨some "model.a.b", none, none⟩ : RunResult).execution_time = none ∧
      (rowOf ⟨some "model.a.b", none, none⟩).time = 0) ∧
    ((⟨none⟩ : RunMetadata).resultsField = none ∧
      pipeline_kpis (⟨none⟩ : RunMetadata).resultsOrEmpty = ⟨0, 0, 0⟩) :=
  ⟨⟨rfl, (C10_field_defaults ⟨some "model.a.b", none, none⟩ ⟨none⟩).1 rfl⟩,
   ⟨rfl, (C10_field_defaults ⟨some "model.a.b", none, none⟩ ⟨none⟩).2.1 rfl⟩,
   ⟨rfl, (C10_field_defaults ⟨some "model.a.b", none, none⟩ ⟨none⟩).2.2 rfl⟩⟩

end PlacesOps
